import Mathlib

/-!
Verification development for the TeX tag parser (src/parsers/tex.c).

The parser is embedded shallowly: the character source (an external
collaborator supplying one character at a time with one-character pushback)
is modelled as a `List Char`, where reading a character is taking the head
and pushing one back is consing it back on.  Machine integers that the C
code compares and does arithmetic on (the `texKind` and `eKeywordId` enums,
the `tokenType` values) are modelled as `Nat` with the same numeric values.
Fallible reads (`readTokenFull` returning `false` at end-of-input) are
modelled with `Option`.
-/

namespace Tex

/-- Value of the C enum constant `TEXTAG_PART` (enum `texKind` in tex.c).  The C
code does integer arithmetic and ordered comparisons on `texKind` values, so
kinds are modelled as the corresponding `Nat` values. -/
def TEXTAG_PART : Nat := 0

/-- Value of the C enum constant `TEXTAG_CHAPTER`. -/
def TEXTAG_CHAPTER : Nat := 1

/-- Value of the C enum constant `TEXTAG_SECTION`. -/
def TEXTAG_SECTION : Nat := 2

/-- Value of the C enum constant `TEXTAG_SUBSECTION`. -/
def TEXTAG_SUBSECTION : Nat := 3

/-- Value of the C enum constant `TEXTAG_SUBSUBSECTION`. -/
def TEXTAG_SUBSUBSECTION : Nat := 4

/-- Value of the C enum constant `TEXTAG_PARAGRAPH`. -/
def TEXTAG_PARAGRAPH : Nat := 5

/-- Value of the C enum constant `TEXTAG_SUBPARAGRAPH`. -/
def TEXTAG_SUBPARAGRAPH : Nat := 6

/-- Value of the C enum constant `TEXTAG_LABEL`. -/
def TEXTAG_LABEL : Nat := 7

/-- Value of the C enum constant `TEXTAG_INCLUDE`. -/
def TEXTAG_INCLUDE : Nat := 8

/-- Value of the C enum constant `KEYWORD_part` (enum `eKeywordId` in tex.c). -/
def KEYWORD_part : Nat := 0

/-- Value of the C enum constant `KEYWORD_chapter`. -/
def KEYWORD_chapter : Nat := 1

/-- Value of the C enum constant `KEYWORD_section`. -/
def KEYWORD_section : Nat := 2

/-- Value of the C enum constant `KEYWORD_subsection`. -/
def KEYWORD_subsection : Nat := 3

/-- Value of the C enum constant `KEYWORD_subsubsection`. -/
def KEYWORD_subsubsection : Nat := 4

/-- Value of the C enum constant `KEYWORD_paragraph`. -/
def KEYWORD_paragraph : Nat := 5

/-- Value of the C enum constant `KEYWORD_subparagraph`. -/
def KEYWORD_subparagraph : Nat := 6

/-- Value of the C enum constant `KEYWORD_label`. -/
def KEYWORD_label : Nat := 7

/-- Value of the C enum constant `KEYWORD_include`. -/
def KEYWORD_include : Nat := 8

/-- Token type `TOKEN_OPEN_SQUARE` from enum `eTokenType` in tex.c: the byte
value of the opening square bracket. -/
def TOKEN_OPEN_SQUARE : Nat := 91

/-- Token type `TOKEN_CLOSE_SQUARE`: the byte value of the closing square
bracket. -/
def TOKEN_CLOSE_SQUARE : Nat := 93

/-- Token type `TOKEN_OPEN_CURLY`: the byte value of the opening curly brace. -/
def TOKEN_OPEN_CURLY : Nat := 123

/-- Token type `TOKEN_CLOSE_CURLY`: the byte value of the closing curly brace. -/
def TOKEN_CLOSE_CURLY : Nat := 125

/-- Token type `TOKEN_STAR`: the byte value of the star character. -/
def TOKEN_STAR : Nat := 42

/-- Token type `TOKEN_UNDEFINED` from tex.c. -/
def TOKEN_UNDEFINED : Nat := 256

/-- Token type `TOKEN_KEYWORD` from tex.c. -/
def TOKEN_KEYWORD : Nat := 257

/-- Token type `TOKEN_IDENTIFIER` from tex.c. -/
def TOKEN_IDENTIFIER : Nat := 258

/-- The fields of the C struct `sTokenInfo` that the parser reads: the token
type, the keyword id (`none` models `KEYWORD_NONE`), and the accumulated text.
Line number and file position are carried by the C struct but never influence
which tags are produced or what their names and scopes are, so they are not
modelled. -/
structure TokenInfo where
  type : Nat
  keyword : Option Nat
  string : String
deriving Repr, DecidableEq

/-- One row of the C table `kindDefinition TexKinds []`: enabled flag,
one-letter code, singular and plural names. -/
structure KindDefinition where
  enabled : Bool
  letter : Char
  name : String
  plural : String
deriving Repr, DecidableEq

/-- The C table `TexKinds` from tex.c (all kinds enabled). -/
def TexKinds : List KindDefinition :=
  [⟨true, 'p', "part", "parts"⟩,
   ⟨true, 'c', "chapter", "chapters"⟩,
   ⟨true, 's', "section", "sections"⟩,
   ⟨true, 'u', "subsection", "subsections"⟩,
   ⟨true, 'b', "subsubsection", "subsubsections"⟩,
   ⟨true, 'P', "paragraph", "paragraphs"⟩,
   ⟨true, 'G', "subparagraph", "subparagraphs"⟩,
   ⟨true, 'l', "label", "labels"⟩,
   ⟨true, 'i', "include", "includes"⟩]

/-- `TexKinds [kind].enabled`, the check performed by `makeTexTag`. -/
def texKindEnabled (kind : Nat) : Bool :=
  match TexKinds.get? kind with
  | some k => k.enabled
  | none => false

/-- The C table `TexKeywordTable` from tex.c. -/
def TexKeywordTable : List (String × Nat) :=
  [("part", KEYWORD_part),
   ("chapter", KEYWORD_chapter),
   ("section", KEYWORD_section),
   ("subsection", KEYWORD_subsection),
   ("subsubsection", KEYWORD_subsubsection),
   ("paragraph", KEYWORD_paragraph),
   ("subparagraph", KEYWORD_subparagraph),
   ("label", KEYWORD_label),
   ("include", KEYWORD_include)]

/-- Modelled from the spec: the external keyword table collaborator
(`lookupKeyword` from keyword.c, outside src/), "a keyword-lookup function
lookup(name) -> optional KeywordId pre-seeded with" the table registered by
tex.c.  Exact-match lookup in `TexKeywordTable`; `none` models `KEYWORD_NONE`. -/
def lookupKeyword (name : String) : Option Nat :=
  match TexKeywordTable.find? (fun p => p.1 == name) with
  | some p => some p.2
  | none => none

/-- C `isalpha` in the default locale: ASCII letters. -/
def isalphaChar (c : Char) : Bool :=
  ('A' ≤ c && c ≤ 'Z') || ('a' ≤ c && c ≤ 'z')

/-- C `isdigit`: ASCII digits. -/
def isdigitChar (c : Char) : Bool :=
  '0' ≤ c && c ≤ '9'

/-- The macro `isIdentChar` from tex.c: letters, digits, bytes at or above
0x80, and the extra characters dollar, underscore, hash, minus, dot, colon. -/
def isIdentChar (c : Char) : Bool :=
  isalphaChar c || isdigitChar c || 128 ≤ c.toNat || c = '$' || c = '_' ||
    c = '#' || c = '-' || c = '.' || c = ':'

/-- The accumulation loop of `parseIdentifier`: take the maximal run of
identifier characters, returning it together with the remaining input (the
first non-identifier character is pushed back, i.e. left on the input). -/
def identRun : List Char → List Char × List Char
  | [] => ([], [])
  | c :: cs =>
    if isIdentChar c then
      match identRun cs with
      | (run, rest) => (c :: run, rest)
    else ([], c :: cs)

/-- `parseIdentifier` from tex.c: put `firstChar`, then keep reading while the
next character is an identifier character, pushing the terminating character
back. -/
def parseIdentifier (firstChar : Char) (input : List Char) : String × List Char :=
  match identRun input with
  | (run, rest) => (String.mk (firstChar :: run), rest)

/-- The body of `readTokenFull` from tex.c.  `whitespaces` is the C counter of
the same name: it starts at 0 (the C code starts it at -1 and increments it
once per character the skip loop consumes, so after the loop it equals the
number of consumed characters) and survives the `goto getNextChar` after a
comment.  The C call `skipToCharacterInInputFile ('\n')` followed by
`goto getNextChar` is modelled by the `inComment` flag: while it is set,
characters are consumed (without counting) up to and including the next
newline, after which normal scanning resumes.  `none` models the C function
returning `false` at end-of-input. -/
def readTokenLoop (includeWhitespaces : Bool) (whitespaces : Nat) (inComment : Bool) :
    List Char → Option (TokenInfo × List Char)
  | [] => none
  | c :: cs =>
    if inComment then
      if c = '\n' then readTokenLoop includeWhitespaces whitespaces false cs
      else readTokenLoop includeWhitespaces whitespaces true cs
    else if c = '\t' ∨ c = ' ' ∨ c = '\n' then
      readTokenLoop includeWhitespaces (whitespaces + 1) false cs
    else if includeWhitespaces ∧ 0 < whitespaces ∧ c ≠ '%' then
      some (⟨32, none, ""⟩, c :: cs)
    else if c = '\\' then
      match cs with
      | [] => some (⟨92, none, ""⟩, [])
      | c2 :: cs2 =>
        if isalphaChar c2 then
          match parseIdentifier c2 cs2 with
          | (ident, rest) =>
            match lookupKeyword ident with
            | some kw => some (⟨TOKEN_KEYWORD, some kw, "\\" ++ ident⟩, rest)
            | none => some (⟨TOKEN_IDENTIFIER, none, "\\" ++ ident⟩, rest)
        else some (⟨92, none, ""⟩, c2 :: cs2)
    else if c = '%' then
      readTokenLoop includeWhitespaces (whitespaces + 1) true cs
    else if isIdentChar c then
      match parseIdentifier c cs with
      | (ident, rest) => some (⟨TOKEN_IDENTIFIER, none, ident⟩, rest)
    else
      some (⟨c.toNat % 256, none, ""⟩, cs)

/-- `readTokenFull` from tex.c: scan one token, optionally representing a
skipped whitespace run by a synthetic space token. -/
def readTokenFull (includeWhitespaces : Bool) (input : List Char) :
    Option (TokenInfo × List Char) :=
  readTokenLoop includeWhitespaces 0 false input

/-- `readToken` from tex.c: `readTokenFull` without whitespace collapsing. -/
def readToken (input : List Char) : Option (TokenInfo × List Char) :=
  readTokenFull false input

/-- The five file-static scope slots of tex.c: `lastPart`, `lastChapter`,
`lastSection`, `lastSubS`, `lastSubSubS`, each holding the most recently
finalized full name at that level (`vString`s, modelled as `String`). -/
structure ScopeState where
  lastPart : String
  lastChapter : String
  lastSection : String
  lastSubS : String
  lastSubSubS : String
deriving Repr, DecidableEq

/-- The state created by `initialize` in tex.c: five fresh empty `vString`s. -/
def initialScopeState : ScopeState := ⟨"", "", "", "", ""⟩

/-- The first loop of `getScopeInfo` (tex.c lines 180-194):
`for (i = kind - 1; i >= TEXTAG_PART; --i)` with `break` on the first match.
The argument is the current value of `i`; each iteration tests exactly the
four conditions the C loop body tests (there is no branch for
`TEXTAG_SUBSUBSECTION` - the `lastSubSubS` slot is never consulted here). -/
def scopeParentFrom (st : ScopeState) : Nat → Option Nat
  | 0 =>
    if 0 = TEXTAG_PART ∧ 0 < st.lastPart.length then some TEXTAG_PART else none
  | i + 1 =>
    if i + 1 = TEXTAG_SUBSECTION ∧ 0 < st.lastSubS.length then some TEXTAG_SUBSECTION
    else if i + 1 = TEXTAG_SECTION ∧ 0 < st.lastSection.length then some TEXTAG_SECTION
    else if i + 1 = TEXTAG_CHAPTER ∧ 0 < st.lastChapter.length then some TEXTAG_CHAPTER
    else scopeParentFrom st i

/-- One iteration of the second loop of `getScopeInfo` (tex.c lines 200-219),
which appends the remembered name at level `i` (if non-empty) to the composed
scope name, separated from a non-empty prefix by the literal two-character
marker of two double quotes.  As in the C loop body there is no branch for
`TEXTAG_SUBSUBSECTION`. -/
def scopeNameStep (st : ScopeState) (parentName : String) (i : Nat) : String :=
  if i = TEXTAG_PART ∧ 0 < st.lastPart.length then
    parentName ++ st.lastPart
  else if i = TEXTAG_CHAPTER ∧ 0 < st.lastChapter.length then
    (if 0 < parentName.length then parentName ++ "\"\"" else parentName) ++ st.lastChapter
  else if i = TEXTAG_SECTION ∧ 0 < st.lastSection.length then
    (if 0 < parentName.length then parentName ++ "\"\"" else parentName) ++ st.lastSection
  else if i = TEXTAG_SUBSECTION ∧ 0 < st.lastSubS.length then
    (if 0 < parentName.length then parentName ++ "\"\"" else parentName) ++ st.lastSubS
  else parentName

/-- The second loop of `getScopeInfo`: `for (i = TEXTAG_PART; i < kind; ++i)`. -/
def scopeNameCompose (st : ScopeState) (kind : Nat) : String :=
  List.foldl (scopeNameStep st) "" (List.range kind)

/-- `getScopeInfo` from tex.c.  Returns the parent kind (`none` models
`KIND_GHOST_INDEX`) and the composed scope name written into `parentName`.
For `kind >= TEXTAG_LABEL` the function jumps to `out` immediately, leaving
the ghost index and an empty name. -/
def getScopeInfo (st : ScopeState) (kind : Nat) : Option Nat × String :=
  if TEXTAG_LABEL ≤ kind then (none, "")
  else
    (match kind with
     | 0 => none
     | k + 1 => scopeParentFrom st k,
     scopeNameCompose st kind)

/-- The fields of a produced tag entry that tex.c fills in for the external
sink (`initTagEntry` and the `extensionFields`): name, kind, and the optional
parent scope kind and composed scope name.  Line number and file position are
copied from the token and never affect these fields, so they are not
modelled. -/
structure TagRecord where
  name : String
  kind : Nat
  scopeKind : Option Nat
  scopeName : Option String
deriving Repr, DecidableEq

/-- `makeTexTag` from tex.c: if the kind is enabled, build a tag entry from
the token's string and the scope information and hand it to the external sink
(`makeTagEntry`).  The scope extension fields are set only when the parent
kind is not the ghost index.  Emission is modelled by returning the list of
records handed to the sink (empty when the kind is disabled). -/
def makeTexTag (st : ScopeState) (name : String) (kind : Nat) : List TagRecord :=
  if texKindEnabled kind then
    match getScopeInfo st kind with
    | (some parentKind, parentName) => [⟨name, kind, some parentKind, some parentName⟩]
    | (none, _) => [⟨name, kind, none, none⟩]
  else []

/-- `updateScopeInfo` from tex.c: record `fullname` at the level of `kind` and
clear every strictly deeper remembered name; the `default` case of the C
switch (paragraph, subparagraph, label, include and out-of-range values)
changes nothing. -/
def updateScopeInfo (kind : Nat) (fullname : String) (st : ScopeState) : ScopeState :=
  if kind = TEXTAG_PART then ⟨fullname, "", "", "", ""⟩
  else if kind = TEXTAG_CHAPTER then ⟨st.lastPart, fullname, "", "", ""⟩
  else if kind = TEXTAG_SECTION then ⟨st.lastPart, st.lastChapter, fullname, "", ""⟩
  else if kind = TEXTAG_SUBSECTION then ⟨st.lastPart, st.lastChapter, st.lastSection, fullname, ""⟩
  else if kind = TEXTAG_SUBSUBSECTION then
    ⟨st.lastPart, st.lastChapter, st.lastSection, st.lastSubS, fullname⟩
  else st

/-- Modelled from the spec: the vString helper `vStringStripTrailing`
(vstring.c, outside src/).  Per the spec (4.2), "trailing whitespace is
stripped from the accumulated name"; the C helper strips trailing `isspace`
characters. -/
def vStringStripTrailing (s : String) : String :=
  String.mk (List.reverse (List.dropWhile
    (fun c => c = ' ' || c = '\t' || c = '\n' || c = '\r' || c = '\x0b' || c = '\x0c')
    (List.reverse s.toList)))

/-- The square-bracket scanning loop of `parseTag` (tex.c lines 439-453):
`while (! isType (token, TOKEN_CLOSE_SQUARE))`, appending each `Identifier`
token (space-separated) to `fullname` when `enterSquare` is set.  `tok` is
the current token; `none` models end-of-input (`eof = true; goto out`).  Each
loop iteration reads a token, which always consumes at least one input
character, so a fuel of the input length plus one never runs out; the
out-of-fuel branch mirrors the end-of-input branch. -/
def squareLoop (enterSquare : Bool) (fuel : Nat) (tok : TokenInfo) (fullname : String)
    (input : List Char) : Option (TokenInfo × String × List Char) :=
  match fuel with
  | 0 => none
  | fuel + 1 =>
    if tok.type = TOKEN_CLOSE_SQUARE then some (tok, fullname, input)
    else
      let fullname :=
        if enterSquare ∧ tok.type = TOKEN_IDENTIFIER then
          (if 0 < fullname.length then fullname.push ' ' else fullname) ++ tok.string
        else fullname
      match readToken input with
      | none => none
      | some (tok2, rest) => squareLoop enterSquare fuel tok2 fullname rest

/-- The square-bracket section of `parseTag` (tex.c lines 429-464).  Returns
`none` on end-of-input, otherwise the current token after the bracket part,
the accumulated `fullname`, the tag records emitted inside the bracket part,
the resulting `useLongName` flag, and the remaining input.  When
`enterSquare` is set, reaching the closing bracket finalizes a tag from the
accumulated name (with no emptiness check) and - as in the C code, which does
not read another token on that path - leaves the closing bracket as the
current token. -/
def squarePart (enterSquare : Bool) (st : ScopeState) (kind : Nat) (tok : TokenInfo)
    (input : List Char) :
    Option (TokenInfo × String × List TagRecord × Bool × List Char) :=
  if tok.type = TOKEN_OPEN_SQUARE then
    match readToken input with
    | none => none
    | some (tok1, in1) =>
      match squareLoop enterSquare (in1.length + 1) tok1 "" in1 with
      | none => none
      | some (tokClose, fullname, in2) =>
        if enterSquare then
          some (tokClose, fullname, makeTexTag st fullname kind, false, in2)
        else
          match readToken in2 with
          | none => none
          | some (tok3, in3) => some (tok3, fullname, [], true, in3)
  else some (tok, "", [], true, input)

/-- The curly-brace scanning loop of `parseTag` (tex.c lines 489-508):
`while (depth > 0)`, appending each token's text (identifier and keyword
tokens contribute their string, every other token its single byte) to
`fullname` when `useLongName` is set, reading the next token in
whitespace-collapsing mode, and adjusting the depth on curly braces.  `none`
models end-of-input.  As for `squareLoop`, a fuel of the input length plus
one never runs out. -/
def braceLoop (useLongName : Bool) (fuel : Nat) (tok : TokenInfo) (depth : Nat)
    (fullname : String) (input : List Char) : Option (String × List Char) :=
  match fuel with
  | 0 => none
  | fuel + 1 =>
    if depth = 0 then some (fullname, input)
    else
      let fullname :=
        if useLongName then
          if tok.type = TOKEN_IDENTIFIER ∨ tok.type = TOKEN_KEYWORD then fullname ++ tok.string
          else fullname.push (Char.ofNat tok.type)
        else fullname
      match readTokenFull useLongName input with
      | none => none
      | some (tok2, rest) =>
        let depth2 :=
          if tok2.type = TOKEN_OPEN_CURLY then depth + 1
          else if tok2.type = TOKEN_CLOSE_CURLY then depth - 1
          else depth
        braceLoop useLongName fuel tok2 depth2 fullname rest

/-- The result of `parseTag`: the `eof` flag it returns, the tag records it
emitted, the scope state after the call, and the remaining input. -/
structure ParseTagResult where
  eof : Bool
  tags : List TagRecord
  state : ScopeState
  rest : List Char
deriving Repr, DecidableEq

/-- `parseTag` from tex.c.  `token` is the current token (the keyword token
the driver dispatched on); `kind` and `enterSquare` are the C parameters.
All `eof = true; goto out` paths return with the tags emitted so far and the
scope state untouched; reaching `out` via the empty-brace-body check
(`\section` with an immediately closed brace) also skips `updateScopeInfo`.
On the normal fall-through exit, `updateScopeInfo` records the accumulated
(stripped) `fullname` - whether or not a tag was finalized. -/
def parseTag (token : TokenInfo) (kind : Nat) (enterSquare : Bool) (st : ScopeState)
    (input : List Char) : ParseTagResult :=
  match (if token.type = TOKEN_KEYWORD then readToken input else some (token, input)) with
  | none => ⟨true, [], st, []⟩
  | some (tok1, in1) =>
    match squarePart enterSquare st kind tok1 in1 with
    | none => ⟨true, [], st, []⟩
    | some (tok2, fullname, tags2, useLongName, in2) =>
      match (if tok2.type = TOKEN_STAR then readToken in2 else some (tok2, in2)) with
      | none => ⟨true, tags2, st, []⟩
      | some (tok3, in3) =>
        if tok3.type = TOKEN_OPEN_CURLY then
          match readToken in3 with
          | none => ⟨true, tags2, st, []⟩
          | some (tok4, in4) =>
            if tok4.type = TOKEN_CLOSE_CURLY then ⟨false, tags2, st, in4⟩
            else
              match braceLoop useLongName (in4.length + 1) tok4 1 fullname in4 with
              | none => ⟨true, tags2, st, []⟩
              | some (fullname2, in5) =>
                if useLongName then
                  let fullname3 := vStringStripTrailing fullname2
                  if 0 < fullname3.length then
                    ⟨false, tags2 ++ makeTexTag st fullname3 kind,
                      updateScopeInfo kind fullname3 st, in5⟩
                  else ⟨false, tags2, updateScopeInfo kind fullname3 st, in5⟩
                else ⟨false, tags2, updateScopeInfo kind fullname2 st, in5⟩
        else ⟨false, tags2, updateScopeInfo kind fullname st, in3⟩

/-- The keyword switch of `parseTexFile` (tex.c lines 543-574): dispatch a
keyword token to `parseTag` with the corresponding kind and bracket flag
(label passes `false`, everything else `true`); the `default` case does
nothing. -/
def dispatchKeyword (tok : TokenInfo) (st : ScopeState) (input : List Char) : ParseTagResult :=
  if tok.keyword = some KEYWORD_part then parseTag tok TEXTAG_PART true st input
  else if tok.keyword = some KEYWORD_chapter then parseTag tok TEXTAG_CHAPTER true st input
  else if tok.keyword = some KEYWORD_section then parseTag tok TEXTAG_SECTION true st input
  else if tok.keyword = some KEYWORD_subsection then parseTag tok TEXTAG_SUBSECTION true st input
  else if tok.keyword = some KEYWORD_subsubsection then
    parseTag tok TEXTAG_SUBSUBSECTION true st input
  else if tok.keyword = some KEYWORD_paragraph then parseTag tok TEXTAG_PARAGRAPH true st input
  else if tok.keyword = some KEYWORD_subparagraph then
    parseTag tok TEXTAG_SUBPARAGRAPH true st input
  else if tok.keyword = some KEYWORD_label then parseTag tok TEXTAG_LABEL false st input
  else if tok.keyword = some KEYWORD_include then parseTag tok TEXTAG_INCLUDE true st input
  else ⟨false, [], st, input⟩

/-- The driver loop `parseTexFile` from tex.c: read a token, stop at
end-of-input, dispatch keyword tokens to `parseTag`, stop when `parseTag`
signals end-of-input, discard everything else.  Returns the emitted tag
records in document order together with the final scope state.  Every
iteration reads at least one token, which consumes at least one character, so
a fuel of the input length plus one never runs out; the out-of-fuel branch
mirrors the end-of-input branch. -/
def parseTexFile (fuel : Nat) (st : ScopeState) (input : List Char) :
    List TagRecord × ScopeState :=
  match fuel with
  | 0 => ([], st)
  | fuel + 1 =>
    match readToken input with
    | none => ([], st)
    | some (tok, in1) =>
      if tok.type = TOKEN_KEYWORD then
        let r := dispatchKeyword tok st in1
        if r.eof then (r.tags, r.state)
        else
          match parseTexFile fuel r.state r.rest with
          | (tags, stFin) => (r.tags ++ tags, stFin)
      else parseTexFile fuel st in1

/-- One whole parse run as `findTexTags` performs it: fresh scope state
(`initialize`), then the driver loop over the input. -/
def runTexParser (input : List Char) : List TagRecord × ScopeState :=
  parseTexFile (input.length + 1) initialScopeState input

/-- Statement of the amended claim C1: the parent-scope walk consults only the
subsection, section, chapter and part slots (never the remembered
subsubsection name), returning the deepest level strictly below the tag's
kind whose slot is non-empty, and no parent at all for label and include. -/
def amendedParentSpec (st : ScopeState) (kind : Nat) : Option Nat :=
  if TEXTAG_LABEL ≤ kind then none
  else if TEXTAG_SUBSECTION < kind ∧ 0 < st.lastSubS.length then some TEXTAG_SUBSECTION
  else if TEXTAG_SECTION < kind ∧ 0 < st.lastSection.length then some TEXTAG_SECTION
  else if TEXTAG_CHAPTER < kind ∧ 0 < st.lastChapter.length then some TEXTAG_CHAPTER
  else if TEXTAG_PART < kind ∧ 0 < st.lastPart.length then some TEXTAG_PART
  else none

/-- The scope state of a `parseTag` call is either returned untouched (on the
end-of-input and empty-brace-body paths) or passed through exactly one
`updateScopeInfo` application. -/
theorem parseTag_state_cases (token : TokenInfo) (kind : Nat) (enterSquare : Bool)
    (st : ScopeState) (input : List Char) :
    (parseTag token kind enterSquare st input).state = st ∨
      ∃ f, (parseTag token kind enterSquare st input).state = updateScopeInfo kind f st := by
  unfold parseTag
  repeat' first
    | exact Or.inl rfl
    | exact Or.inr ⟨_, rfl⟩
    | split
    | dsimp only

/-- For the label and include kinds `getScopeInfo` jumps straight to `out`,
returning the ghost index and an empty scope name. -/
theorem getScopeInfo_ge_label (st : ScopeState) (kind : Nat) (h : TEXTAG_LABEL ≤ kind) :
    getScopeInfo st kind = (none, "") := by
  unfold getScopeInfo
  simp [h]

/-- Every record handed to the sink by `makeTexTag` carries the kind it was
called with, and for label and include kinds it carries no scope fields. -/
theorem mem_makeTexTag (st : ScopeState) (name : String) (kind : Nat) (r : TagRecord)
    (hr : r ∈ makeTexTag st name kind) :
    r.kind = kind ∧ (TEXTAG_LABEL ≤ kind → r.scopeKind = none ∧ r.scopeName = none) := by
  unfold makeTexTag at hr
  split at hr
  · split at hr
    · next parentKind parentName heq =>
      simp only [List.mem_singleton] at hr
      subst hr
      refine ⟨rfl, fun h7 => ?_⟩
      rw [getScopeInfo_ge_label st kind h7] at heq
      cases heq
    · next heq =>
      simp only [List.mem_singleton] at hr
      subst hr
      exact ⟨rfl, fun _ => ⟨rfl, rfl⟩⟩
  · cases hr

/-- Every record emitted by the square-bracket section of `parseTag` comes
from a `makeTexTag` call with the same scope state and kind. -/
theorem mem_squarePart_tags (enterSquare : Bool) (st : ScopeState) (kind : Nat)
    (tok : TokenInfo) (input : List Char) (tok2 : TokenInfo) (fullname : String)
    (tags2 : List TagRecord) (useLongName : Bool) (in2 : List Char)
    (hout : squarePart enterSquare st kind tok input =
      some (tok2, fullname, tags2, useLongName, in2))
    (r : TagRecord) (hr : r ∈ tags2) : ∃ n, r ∈ makeTexTag st n kind := by
  unfold squarePart at hout
  repeat' split at hout
  all_goals first
    | exact Option.noConfusion hout
    | (simp only [Option.some.injEq, Prod.mk.injEq] at hout
       obtain ⟨h1, h2, h3, h4, h5⟩ := hout
       subst h3
       first
         | exact ⟨_, hr⟩
         | cases hr)

/-- Every record emitted during a `parseTag` call comes from a `makeTexTag`
call with the entry scope state and the dispatched kind. -/
theorem mem_parseTag_tags_from_makeTexTag (token : TokenInfo) (kind : Nat)
    (enterSquare : Bool) (st : ScopeState) (input : List Char) (r : TagRecord)
    (hr : r ∈ (parseTag token kind enterSquare st input).tags) :
    ∃ n, r ∈ makeTexTag st n kind := by
  unfold parseTag at hr
  repeat' first
    | split at hr
    | dsimp only at hr
  all_goals first
    | exact absurd hr (List.not_mem_nil r)
    | exact mem_squarePart_tags _ _ _ _ _ _ _ _ _ _ (by assumption) _ hr
    | (rcases List.mem_append.1 hr with hmem | hmem
       · exact mem_squarePart_tags _ _ _ _ _ _ _ _ _ _ (by assumption) _ hmem
       · exact ⟨_, hmem⟩)

/-- Records emitted by `parseTag` carry the dispatched kind, and for label and
include kinds they carry no scope fields. -/
theorem mem_parseTag_tags (token : TokenInfo) (kind : Nat) (enterSquare : Bool)
    (st : ScopeState) (input : List Char) (r : TagRecord)
    (hr : r ∈ (parseTag token kind enterSquare st input).tags) :
    r.kind = kind ∧ (TEXTAG_LABEL ≤ kind → r.scopeKind = none ∧ r.scopeName = none) := by
  obtain ⟨n, hn⟩ := mem_parseTag_tags_from_makeTexTag token kind enterSquare st input r hr
  exact mem_makeTexTag st n kind r hn

/-- Records emitted through the driver's keyword switch that are of label or
include kind carry no scope fields. -/
theorem mem_dispatchKeyword_tags (tok : TokenInfo) (st : ScopeState) (input : List Char)
    (r : TagRecord) (hr : r ∈ (dispatchKeyword tok st input).tags)
    (hk : r.kind = TEXTAG_LABEL ∨ r.kind = TEXTAG_INCLUDE) :
    r.scopeKind = none ∧ r.scopeName = none := by
  unfold dispatchKeyword at hr
  split_ifs at hr
  all_goals first
    | cases hr
    | (obtain ⟨hkind, hscope⟩ := mem_parseTag_tags _ _ _ _ _ _ hr
       first
         | exact hscope (by decide)
         | (exfalso
            rcases hk with h | h <;> rw [hkind] at h <;> revert h <;> decide))

/-- Every record of label or include kind in the driver's output carries no
scope fields, for any fuel, scope state and input. -/
theorem mem_parseTexFile_tags (fuel : Nat) :
    ∀ (st : ScopeState) (input : List Char) (r : TagRecord),
      r ∈ (parseTexFile fuel st input).1 →
      (r.kind = TEXTAG_LABEL ∨ r.kind = TEXTAG_INCLUDE) →
      r.scopeKind = none ∧ r.scopeName = none := by
  induction fuel with
  | zero =>
    intro st input r hr hk
    simp [parseTexFile] at hr
  | succ fuel ih =>
    intro st input r hr hk
    unfold parseTexFile at hr
    rcases hread : readToken input with _ | ⟨tok, in1⟩
    · rw [hread] at hr
      simp at hr
    · rw [hread] at hr
      try dsimp only at hr
      by_cases hkw : tok.type = TOKEN_KEYWORD
      · rw [if_pos hkw] at hr
        try dsimp only at hr
        by_cases heof : (dispatchKeyword tok st in1).eof
        · rw [if_pos heof] at hr
          exact mem_dispatchKeyword_tags _ _ _ _ hr hk
        · rw [if_neg heof] at hr
          rcases hpf : parseTexFile fuel (dispatchKeyword tok st in1).state
              (dispatchKeyword tok st in1).rest with ⟨tags, stFin⟩
          rw [hpf] at hr
          rcases List.mem_append.1 hr with hmem | hmem
          · exact mem_dispatchKeyword_tags _ _ _ _ hmem hk
          · refine ih (dispatchKeyword tok st in1).state (dispatchKeyword tok st in1).rest
              r ?_ hk
            rw [hpf]
            exact hmem
      · rw [if_neg hkw] at hr
        exact ih _ _ r hr hk

/-- C1 counterexample: the claim predicts that a Paragraph tag parsed while
the remembered subsubsection name is non-empty gets parent scope kind
Subsubsection.  On the input of a subsubsection named X followed by a
paragraph named P, the paragraph record is emitted with no parent scope at
all (the parent-kind loop in `getScopeInfo` has no branch for the
subsubsection level), refuting the claim. -/
theorem getScopeInfo_paragraph_subsubsection_cex :
    (runTexParser ("\\subsubsection\x7bX\x7d\\paragraph\x7bP\x7d".toList)).1 =
      [⟨"X", TEXTAG_SUBSUBSECTION, none, none⟩, ⟨"P", TEXTAG_PARAGRAPH, none, none⟩] ∧
    getScopeInfo ⟨"", "", "", "", "X"⟩ TEXTAG_PARAGRAPH = (none, "") ∧
    (getScopeInfo ⟨"", "", "", "", "X"⟩ TEXTAG_PARAGRAPH).1 ≠ some TEXTAG_SUBSUBSECTION := by
  refine ⟨by decide, by decide, by decide⟩

/-- C1 amended: the parent-scope walk of `getScopeInfo` consults only the
subsection, section, chapter and part slots - the remembered subsubsection
name is never examined - and returns the deepest of those levels that lies
strictly below the tag's kind and has a non-empty remembered name (and no
parent for label and include kinds). -/
theorem getScopeInfo_parent_amended (st : ScopeState) (kind : Nat) :
    (getScopeInfo st kind).1 = amendedParentSpec st kind := by
  unfold getScopeInfo amendedParentSpec
  by_cases h7 : TEXTAG_LABEL ≤ kind
  · simp [h7]
  · have hlt : kind < 7 := by
      simpa [TEXTAG_LABEL] using Nat.lt_of_not_le h7
    interval_cases kind <;>
      simp [h7, scopeParentFrom, TEXTAG_PART, TEXTAG_CHAPTER, TEXTAG_SECTION,
        TEXTAG_SUBSECTION, TEXTAG_SUBSUBSECTION, TEXTAG_PARAGRAPH, TEXTAG_SUBPARAGRAPH,
        TEXTAG_LABEL]

/-- C2 counterexample: the claim predicts that an empty bracket pair emits no
tag record from the bracket form.  On the input with an empty bracket before
a braced body, the bracket path of `parseTag` calls `makeTexTag`
unconditionally, so a record with an empty name is emitted (and the brace
body is not parsed, because the closing bracket remains the current token),
refuting the claim. -/
theorem parseTag_empty_bracket_cex :
    (runTexParser ("\\section[]\x7bLong\x7d".toList)).1 =
      [⟨"", TEXTAG_SECTION, none, none⟩] ∧
    (runTexParser ("\\section[]\x7bLong\x7d".toList)).1 ≠ [] := by
  refine ⟨by decide, by decide⟩

/-- C2 amended: when `enterSquare` is true, reaching the closing bracket
always finalizes a tag from the space-separated Identifier content of the
brackets, with no emptiness check: after an immediately closed bracket pair,
`parseTag` emits exactly the records `makeTexTag` produces for the empty
name, records the empty name in the scope state, and leaves the rest of the
input (including any following brace body) unconsumed. -/
theorem parseTag_bracket_always_finalizes_amended (st : ScopeState) (kind : Nat)
    (kw : Option Nat) (s : String) (rest : List Char) :
    parseTag ⟨TOKEN_KEYWORD, kw, s⟩ kind true st ('[' :: ']' :: rest) =
      ⟨false, makeTexTag st "" kind, updateScopeInfo kind "" st, rest⟩ := rfl

/-- C3 counterexample: the claim predicts that a sectioning keyword not
followed by a finalized tag leaves the scope state unchanged.  Starting from
the state remembering section A and subsection B, parsing a bare section
keyword followed by a plain word finalizes no tag (the emitted list is
empty) yet clears the section and subsection slots, refuting the claim. -/
theorem parseTag_bare_keyword_clears_scope_cex :
    parseTag ⟨TOKEN_KEYWORD, some KEYWORD_section, "\\section"⟩ TEXTAG_SECTION true
        ⟨"", "", "A", "B", ""⟩ (" x".toList) =
      ⟨false, [], ⟨"", "", "", "", ""⟩, []⟩ ∧
    (⟨"", "", "", "", ""⟩ : ScopeState) ≠ (⟨"", "", "A", "B", ""⟩ : ScopeState) := by
  refine ⟨by decide, by decide⟩

/-- C3 amended: the scope slots are mutated at most once per `parseTag` call,
through a single `updateScopeInfo` application; but that application also
happens when no tag was finalized: whenever the token after the keyword is
not a bracket, star or brace, `parseTag` emits nothing and still calls
`updateScopeInfo` with the empty accumulated name, overwriting the slot at
the tag's level and clearing the deeper ones.  (The state is returned
untouched only on the end-of-input and empty-brace-body paths.) -/
theorem parseTag_scope_update_amended :
    (∀ (token : TokenInfo) (kind : Nat) (enterSquare : Bool) (st : ScopeState)
        (input : List Char),
      (parseTag token kind enterSquare st input).state = st ∨
        ∃ f, (parseTag token kind enterSquare st input).state = updateScopeInfo kind f st) ∧
    (∀ (kind : Nat) (enterSquare : Bool) (kw : Option Nat) (s : String) (st : ScopeState)
        (input : List Char) (t1 : TokenInfo) (in1 : List Char),
      readToken input = some (t1, in1) →
      t1.type ≠ TOKEN_OPEN_SQUARE → t1.type ≠ TOKEN_STAR → t1.type ≠ TOKEN_OPEN_CURLY →
      parseTag ⟨TOKEN_KEYWORD, kw, s⟩ kind enterSquare st input =
        ⟨false, [], updateScopeInfo kind "" st, in1⟩) := by
  constructor
  · exact parseTag_state_cases
  · intro kind enterSquare kw s st input t1 in1 hread h1 h2 h3
    simp [parseTag, TOKEN_KEYWORD, hread, squarePart, h1, h2, h3]

/-- C3 amended witness: the amended statement applied to the concrete bare
section keyword followed by a plain word, starting from the state
remembering section A and subsection B. -/
theorem parseTag_scope_update_amended_witness :
    parseTag ⟨TOKEN_KEYWORD, some KEYWORD_section, "\\section"⟩ TEXTAG_SECTION true
        ⟨"", "", "A", "B", ""⟩ (" x".toList) =
      ⟨false, [], updateScopeInfo TEXTAG_SECTION "" ⟨"", "", "A", "B", ""⟩, []⟩ :=
  parseTag_scope_update_amended.2 TEXTAG_SECTION true (some KEYWORD_section) "\\section"
    ⟨"", "", "A", "B", ""⟩ (" x".toList) ⟨TOKEN_IDENTIFIER, none, "x"⟩ []
    (by decide) (by decide) (by decide) (by decide)

/-- C4 counterexample: the claim predicts that a backslash followed by a
non-alphabetic character is discarded with scanning restarting, so that the
next returned token starts at a later significant character.  On the
two-character input of a backslash followed by the digit 1, the tokenizer
instead returns a token for the backslash itself (type is the backslash
byte, empty text) with the digit pushed back, and does not return the
identifier token the claim predicts, refuting the claim. -/
theorem readTokenFull_backslash_token_cex :
    readTokenFull false ("\\1".toList) = some (⟨92, none, ""⟩, ['1']) ∧
    readTokenFull false ("\\1".toList) ≠ some (⟨TOKEN_IDENTIFIER, none, "1"⟩, []) := by
  refine ⟨by decide, by decide⟩

/-- C4 amended: when the character after a backslash is not alphabetic, that
character is pushed back and the backslash itself is surfaced as a token
carrying the backslash byte value and empty text; the driver later discards
it as a non-keyword token. -/
theorem readTokenFull_backslash_nonalpha_amended (b : Bool) (c : Char) (cs : List Char)
    (h : isalphaChar c = false) :
    readTokenFull b ('\\' :: c :: cs) = some (⟨92, none, ""⟩, c :: cs) := by
  simp [readTokenFull, readTokenLoop, h]

/-- C4 amended witness: the amended statement applied at the backslash-digit
input. -/
theorem readTokenFull_backslash_nonalpha_amended_witness :
    readTokenFull false ('\\' :: '1' :: []) = some (⟨92, none, ""⟩, '1' :: []) :=
  readTokenFull_backslash_nonalpha_amended false '1' [] (by decide)

/-- C5: on the chain part P, chapter C, section S, the Section record has
scope kind Chapter and composed scope name joining P and C with the literal
two-double-quote marker; the subsequent part P2 clears the remembered
chapter, section, subsection and subsubsection names, so the following
section S2 is emitted with scope kind Part and scope name P2. -/
theorem parseTexFile_scope_chain_example :
    runTexParser
        ("\\part\x7bP\x7d\\chapter\x7bC\x7d\\section\x7bS\x7d\\part\x7bP2\x7d\\section\x7bS2\x7d".toList) =
      ([⟨"P", TEXTAG_PART, none, none⟩,
        ⟨"C", TEXTAG_CHAPTER, some TEXTAG_PART, some "P"⟩,
        ⟨"S", TEXTAG_SECTION, some TEXTAG_CHAPTER, some "P\"\"C"⟩,
        ⟨"P2", TEXTAG_PART, none, none⟩,
        ⟨"S2", TEXTAG_SECTION, some TEXTAG_PART, some "P2"⟩],
       ⟨"P2", "", "S2", "", ""⟩) := by decide

/-- C6: a sectioning keyword with non-empty bracket form finalizes exactly
one tag named from the bracket content; since the closing bracket remains
the current token, the following brace body is left to the driver, which
discards its non-keyword tokens, so the construct with bracket Short and a
long brace body produces exactly the one record named Short. -/
theorem parseTag_bracket_short_name_priority :
    (∀ (st : ScopeState) (kw : Option Nat) (s : String) (rest : List Char),
      parseTag ⟨TOKEN_KEYWORD, kw, s⟩ TEXTAG_SECTION true st ("[Short]".toList ++ rest) =
        ⟨false, makeTexTag st "Short" TEXTAG_SECTION,
          updateScopeInfo TEXTAG_SECTION "Short" st, rest⟩) ∧
    (runTexParser ("\\section[Short]\x7bA very long title\x7d".toList)).1 =
      [⟨"Short", TEXTAG_SECTION, none, none⟩] := by
  refine ⟨fun st kw s rest => rfl, by decide⟩

/-- C7: a percent sign starts a comment running through the next newline and
contributes nothing to any tag name, even inside a brace body; the section
whose brace body is Foo, a comment, and Bar yields the single record named
with Foo and Bar joined by one normalized space - both when whitespace
precedes the comment marker and when the comment marker directly follows
the word. -/
theorem parseTexFile_comment_elision :
    (runTexParser ("\\section\x7bFoo % comment\nBar\x7d".toList)).1 =
      [⟨"Foo Bar", TEXTAG_SECTION, none, none⟩] ∧
    (runTexParser ("\\section\x7bFoo% comment\nBar\x7d".toList)).1 =
      [⟨"Foo Bar", TEXTAG_SECTION, none, none⟩] := by
  refine ⟨by decide, by decide⟩

/-- C8: whenever `parseTag` returns with the end-of-input flag set it leaves
the scope state untouched (the truncated construct records nothing in the
scope state); and on the concrete input of a completed section A followed by
a section with an unterminated brace body, the parse stops with exactly the
record for A emitted and the scope state as the first section left it - no
record is emitted for the truncated construct. -/
theorem parseTag_eof_aborts_tag :
    (∀ (token : TokenInfo) (kind : Nat) (enterSquare : Bool) (st : ScopeState)
        (input : List Char),
      (parseTag token kind enterSquare st input).eof = true →
        (parseTag token kind enterSquare st input).state = st) ∧
    runTexParser ("\\section\x7bA\x7d\\section\x7bUnterminated".toList) =
      ([⟨"A", TEXTAG_SECTION, none, none⟩], ⟨"", "", "A", "", ""⟩) := by
  constructor
  · intro token kind enterSquare st input
    unfold parseTag
    repeat' first
      | split
      | dsimp only
    all_goals intro h
    all_goals first
      | rfl
      | simp at h
  · decide

/-- C8 witness: the end-of-input part of the statement applied to a section
keyword whose brace body is truncated by end-of-input. -/
theorem parseTag_eof_aborts_tag_witness :
    (parseTag ⟨TOKEN_KEYWORD, some KEYWORD_section, "\\section"⟩ TEXTAG_SECTION true
        ⟨"", "", "A", "", ""⟩ ("\x7bUnterminated".toList)).state = ⟨"", "", "A", "", ""⟩ :=
  parseTag_eof_aborts_tag.1 ⟨TOKEN_KEYWORD, some KEYWORD_section, "\\section"⟩
    TEXTAG_SECTION true ⟨"", "", "A", "", ""⟩ ("\x7bUnterminated".toList) (by decide)

/-- C9: parsing a label tag (dispatched with `enterSquare = false`) or an
include tag (dispatched with `enterSquare = true`) leaves all five scope
slots exactly as they were, for every current token, preceding scope state
and input: `updateScopeInfo` is the identity for these kinds and nothing
else in `parseTag` touches the state. -/
theorem parseTag_label_include_preserve_scope_state (token : TokenInfo) (st : ScopeState)
    (input : List Char) :
    (parseTag token TEXTAG_LABEL false st input).state = st ∧
    (parseTag token TEXTAG_INCLUDE true st input).state = st := by
  constructor
  · rcases parseTag_state_cases token TEXTAG_LABEL false st input with h | ⟨f, h⟩
    · exact h
    · rw [h]; rfl
  · rcases parseTag_state_cases token TEXTAG_INCLUDE true st input with h | ⟨f, h⟩
    · exact h
    · rw [h]; rfl

/-- C10: every record of kind Include emitted during a whole parse run
carries no parent scope kind and no scope name, regardless of any
chapter/section context preceding it - `getScopeInfo` returns the ghost
index for Include just as it does for Label, so `makeTexTag` never fills the
scope fields. -/
theorem texFile_include_tags_have_no_scope (input : List Char) (r : TagRecord)
    (hr : r ∈ (runTexParser input).1) (hk : r.kind = TEXTAG_INCLUDE) :
    r.scopeKind = none ∧ r.scopeName = none :=
  mem_parseTexFile_tags (input.length + 1) initialScopeState input r hr (Or.inr hk)

/-- C10 witness: the statement applied to the include record produced after
a preceding chapter, on the concrete input of chapter C followed by an
include of file. -/
theorem texFile_include_tags_have_no_scope_witness :
    (⟨"file", TEXTAG_INCLUDE, none, none⟩ : TagRecord).scopeKind = none ∧
    (⟨"file", TEXTAG_INCLUDE, none, none⟩ : TagRecord).scopeName = none :=
  texFile_include_tags_have_no_scope ("\\chapter\x7bC\x7d\\include\x7bfile\x7d".toList)
    ⟨"file", TEXTAG_INCLUDE, none, none⟩ (by decide) (by decide)

end Tex
